import Mathlib

/-!
Verification development for the `tab` repository: a packaging descriptor
(`setup.py`) for a short script that opens a new terminal window in the
current working directory and optionally runs a command in it.

The repository ships the packaging descriptor; the launcher script itself is
not among the source files, so its behaviour is modelled from the
specification (each such definition is marked `Modelled from the spec:`).
The `setup.py` module is embedded directly from the source.
-/

namespace Tab

/-- Modelled from the spec: the observable requests an invocation of the
launcher may issue to the host environment.  The missing launcher script is
described by the spec as opening a window at a directory and delivering a
command text followed by an execution trigger.  The vocabulary also lists
mutations the spec says never happen (file writes, environment-variable
changes, persisted state), so that the frame property is a real statement
rather than one true of every effect list. -/
inductive Effect where
  | openWindow (dir : String)
  | deliverText (text : String)
  | execTrigger
  | writeFile (path contents : String)
  | setEnvVar (key value : String)
  | persistState (key value : String)
deriving DecidableEq, Repr

/-- Modelled from the spec: the two recoverable error kinds of the launcher. -/
inductive TabError where
  | environmentUnavailable
  | commandDeliveryFailed
deriving DecidableEq, Repr

/-- Modelled from the spec: the human-readable message each error kind puts
on the error stream. -/
def TabError.message : TabError → String
  | .environmentUnavailable => "tab: the host has no terminal facility to target"
  | .commandDeliveryFailed => "tab: the new session cannot be sent input"

/-- Modelled from the spec: the capabilities of the host environment the
launcher targets — whether a terminal/window-management facility exists, and
whether a newly opened session accepts delivered input. -/
structure Host where
  hasWindowFacility : Bool
  acceptsInput : Bool
deriving DecidableEq, Repr

/-- Modelled from the spec: trailing arguments, if present, are concatenated
(space-joined) into a single optional command string; no flags are
recognized. -/
def buildCommand (args : List String) : Option String :=
  if args.isEmpty then none else some (String.intercalate " " args)

/-- The observable outcome of one invocation of the launcher: its process
exit code, the requests issued to the host, and the errors it reported. -/
structure RunResult where
  exitCode : Nat
  effects : List Effect
  errors : List TabError
deriving DecidableEq, Repr

/-- The messages a run prints on the error stream, one per reported error. -/
def RunResult.stdErr (r : RunResult) : List String :=
  r.errors.map TabError.message

/-- Modelled from the spec: one invocation of the launcher given an optional
command string.  If the host has no windowing facility the run fails with
`EnvironmentUnavailable` and issues nothing.  Otherwise one window is opened
at the invoking working directory; a supplied command is sent verbatim
followed by an execution trigger, and if the session cannot be sent input
the run fails with `CommandDeliveryFailed`.  Nothing is retried. -/
def runCmd (host : Host) (cwd : String) (cmd : Option String) : RunResult :=
  if host.hasWindowFacility then
    match cmd with
    | none => { exitCode := 0, effects := [.openWindow cwd], errors := [] }
    | some c =>
      if host.acceptsInput then
        { exitCode := 0
          effects := [.openWindow cwd, .deliverText c, .execTrigger]
          errors := [] }
      else
        { exitCode := 1
          effects := [.openWindow cwd]
          errors := [.commandDeliveryFailed] }
  else
    { exitCode := 1, effects := [], errors := [.environmentUnavailable] }

/-- Modelled from the spec: one invocation of the launcher with the raw
trailing arguments of the command line. -/
def run (host : Host) (cwd : String) (args : List String) : RunResult :=
  runCmd host cwd (buildCommand args)

/-- The directories at which a list of issued requests opens windows. -/
def openedDirs (es : List Effect) : List String :=
  es.filterMap fun e =>
    match e with
    | .openWindow d => some d
    | _ => none

/-- The command texts a list of issued requests delivers to a session. -/
def deliveredTexts (es : List Effect) : List String :=
  es.filterMap fun e =>
    match e with
    | .deliverText t => some t
    | _ => none

/-- An arbitrary interleaving of two sequences of host requests, each request
tagged with the invocation (1 or 2) that issued it.  This is the schedule a
concurrent execution of two invocations may produce. -/
inductive Interleave : List (Nat × Effect) → List (Nat × Effect) → List (Nat × Effect) → Prop where
  | nil : Interleave [] [] []
  | left {x : Nat × Effect} {xs ys zs : List (Nat × Effect)} :
      Interleave xs ys zs → Interleave (x :: xs) ys (x :: zs)
  | right {y : Nat × Effect} {xs ys zs : List (Nat × Effect)} :
      Interleave xs ys zs → Interleave xs (y :: ys) (y :: zs)

/-- Tag every request of an invocation with that invocation's identifier. -/
def tagged (i : Nat) (es : List Effect) : List (Nat × Effect) :=
  es.map fun e => (i, e)

/-- The requests a given invocation issued, recovered from a schedule. -/
def projectInv (i : Nat) (l : List (Nat × Effect)) : List Effect :=
  l.filterMap fun p => if p.1 = i then some p.2 else none

/-- Keyword arguments of the `setuptools.setup` call in `src/setup.py`. -/
structure SetupArgs where
  name : String
  version : String
  description : String
  long_description : String
  author : String
  author_email : String
  url : String
  classifiers : List String
  packages : List String
  scripts : List String
  include_package_data : Bool
deriving DecidableEq, Repr

/-- The literal keyword arguments `setup(...)` receives in `src/setup.py`,
as a function of the `long_description` value computed at line 5 and of the
result of `find_packages()` (which scans the filesystem). -/
def tabSetupArgs (long_desc : String) (pkgs : List String) : SetupArgs :=
  { name := "tab"
    version := "1.0"
    description := "Opens a new OS X Terminal window in the current directory and runs an optional command in it."
    long_description := long_desc
    author := "Martin Mahner"
    author_email := "martin@mahner.org"
    url := "https://github.com/bartTC/tab/"
    classifiers :=
      ["Development Status :: 5 - Production/Stable",
       "License :: OSI Approved :: MIT License",
       "Operating System :: Mac OS X",
       "Programming Language :: Python"]
    packages := pkgs
    scripts := ["tab"]
    include_package_data := true }

/-- Shallow embedding of the module-level execution of `src/setup.py` over a
filesystem (a map from file names in the working directory to contents).
Line 5 evaluates `open('README').read()` before `setup(...)` runs: if the
file is absent the open raises and the script stops with an error, so
`setup` is never invoked; otherwise `setup` receives the file's entire
contents as `long_description`. -/
def runSetupScript (fs : String → Option String) (pkgs : List String) :
    Except String SetupArgs :=
  match fs "README" with
  | none => Except.error "IOError: cannot open file README"
  | some content => Except.ok (tabSetupArgs content pkgs)

/-- Projecting an interleaved schedule onto a tag that never occurs in the
right component recovers the projection of the left component. -/
theorem interleave_projectInv_left (i : Nat) {xs ys zs : List (Nat × Effect)}
    (h : Interleave xs ys zs) :
    (∀ p ∈ ys, p.1 ≠ i) → projectInv i zs = projectInv i xs := by
  induction h with
  | nil => intro; rfl
  | @left x xs ys zs h ih =>
      intro hys
      simp only [projectInv, List.filterMap_cons] at ih ⊢
      by_cases hx : x.1 = i <;> simp [hx, ih hys]
  | @right y xs ys zs h ih =>
      intro hys
      have hy : y.1 ≠ i := hys y (List.mem_cons_self y ys)
      simp only [projectInv, List.filterMap_cons] at ih ⊢
      simp [hy, ih fun p hp => hys p (List.mem_cons_of_mem y hp)]

/-- Projecting an interleaved schedule onto a tag that never occurs in the
left component recovers the projection of the right component. -/
theorem interleave_projectInv_right (i : Nat) {xs ys zs : List (Nat × Effect)}
    (h : Interleave xs ys zs) :
    (∀ p ∈ xs, p.1 ≠ i) → projectInv i zs = projectInv i ys := by
  induction h with
  | nil => intro; rfl
  | @left x xs ys zs h ih =>
      intro hxs
      have hx : x.1 ≠ i := hxs x (List.mem_cons_self x xs)
      simp only [projectInv, List.filterMap_cons] at ih ⊢
      simp [hx, ih fun p hp => hxs p (List.mem_cons_of_mem x hp)]
  | @right y xs ys zs h ih =>
      intro hxs
      simp only [projectInv, List.filterMap_cons] at ih ⊢
      by_cases hy : y.1 = i <;> simp [hy, ih hxs]

/-- Projecting onto the tag used for tagging recovers the original requests. -/
theorem projectInv_tagged_self (i : Nat) (es : List Effect) :
    projectInv i (tagged i es) = es := by
  induction es with
  | nil => rfl
  | cons e es ih =>
      simp only [tagged, List.map_cons, projectInv, List.filterMap_cons] at ih ⊢
      simp [ih]

/-- Every tagged request carries the tag it was tagged with. -/
theorem tagged_fst (i : Nat) (es : List Effect) :
    ∀ p ∈ tagged i es, p.1 = i := by
  intro p hp
  simp only [tagged, List.mem_map] at hp
  obtain ⟨e, _, rfl⟩ := hp
  rfl

/-- A run on a host with a windowing facility opens exactly one window, at
the invoking working directory. -/
theorem openedDirs_run (host : Host) (cwd : String) (args : List String)
    (hfac : host.hasWindowFacility = true) :
    openedDirs (run host cwd args).effects = [cwd] := by
  obtain ⟨fac, inp⟩ := host
  cases inp <;> cases args <;> simp_all [run, runCmd, buildCommand, openedDirs]

/-- C1: with one or more trailing arguments, no argument is treated as a
flag; the arguments are space-joined into one command string, and that
literal text is delivered to the newly opened session followed by an
execution trigger. -/
theorem trailing_args_joined_and_delivered (host : Host) (cwd : String)
    (args : List String) (hfac : host.hasWindowFacility = true)
    (hinp : host.acceptsInput = true) (hargs : args ≠ []) :
    (run host cwd args).effects =
      [Effect.openWindow cwd,
       Effect.deliverText (String.intercalate " " args),
       Effect.execTrigger] := by
  cases args with
  | nil => exact absurd rfl hargs
  | cons a as => simp [run, runCmd, buildCommand, hfac, hinp]

/-- Witness for C1 at the spec's own example `["ls", "-la"]`: the literal
text `ls -la` is delivered, followed by the execution trigger. -/
theorem trailing_args_joined_and_delivered_witness :
    (run ⟨true, true⟩ "/tmp/project" ["ls", "-la"]).effects =
      [Effect.openWindow "/tmp/project", Effect.deliverText "ls -la",
       Effect.execTrigger] := by
  have h := trailing_args_joined_and_delivered ⟨true, true⟩ "/tmp/project"
    ["ls", "-la"] rfl rfl (by simp)
  rw [h]
  decide

/-- C2: every invocation that exits with status 0 opened exactly one window,
whose working directory is the invoking working directory — whatever that
directory is, never anything derived from the executable. -/
theorem success_opens_one_window_at_cwd (host : Host) (cwd : String)
    (args : List String) (hexit : (run host cwd args).exitCode = 0) :
    openedDirs (run host cwd args).effects = [cwd] := by
  obtain ⟨fac, inp⟩ := host
  cases fac <;> cases inp <;> cases args <;>
    simp_all [run, runCmd, buildCommand, openedDirs]

/-- Witness for C2 at an invocation from `/tmp/project` with no arguments. -/
theorem success_opens_one_window_at_cwd_witness :
    openedDirs (run ⟨true, true⟩ "/tmp/project" []).effects = ["/tmp/project"] :=
  success_opens_one_window_at_cwd ⟨true, true⟩ "/tmp/project" [] rfl

/-- C3 as stated is false: on a host whose windowing facility works but
whose new session cannot be sent input, the open-window request is
successfully dispatched (a window opens at the working directory), yet the
exit status is non-zero, refuting the claimed equivalence. -/
theorem exit_zero_iff_window_dispatch_counterexample :
    openedDirs (run ⟨true, false⟩ "/tmp/project" ["ls"]).effects =
      ["/tmp/project"] ∧
    (run ⟨true, false⟩ "/tmp/project" ["ls"]).exitCode ≠ 0 := by
  decide

/-- C3 (amended): the exit status is 0 iff the open-window request was
dispatched and any supplied command was also delivered; whenever the host
environment cannot be reached, the exit status is non-zero. -/
theorem exit_zero_iff_action_completed (host : Host) (cwd : String)
    (args : List String) :
    (((run host cwd args).exitCode = 0) ↔
      (openedDirs (run host cwd args).effects = [cwd] ∧
       deliveredTexts (run host cwd args).effects =
         (buildCommand args).toList)) ∧
    (host.hasWindowFacility = false → (run host cwd args).exitCode ≠ 0) := by
  obtain ⟨fac, inp⟩ := host
  cases fac <;> cases inp <;> cases args <;>
    simp_all [run, runCmd, buildCommand, openedDirs, deliveredTexts]

/-- Witness for C3 (amended) on an unreachable host. -/
theorem exit_zero_iff_action_completed_witness :
    (run ⟨false, true⟩ "/tmp/project" []).exitCode ≠ 0 :=
  (exit_zero_iff_action_completed ⟨false, true⟩ "/tmp/project" []).2 rfl

/-- C4: the launcher has exactly two recoverable error kinds;
`environmentUnavailable` is reported exactly when the host has no windowing
facility, `commandDeliveryFailed` exactly when a command was supplied and
the session cannot be sent input; a failure is reported iff the exit status
is non-zero, each reported error carries a non-empty message on the error
stream, and no action is retried (at most one window request and one
delivery per run). -/
theorem two_error_kinds_surfaced (host : Host) (cwd : String)
    (args : List String) :
    (∀ e : TabError,
      e = TabError.environmentUnavailable ∨ e = TabError.commandDeliveryFailed) ∧
    ((run host cwd args).errors = [TabError.environmentUnavailable] ↔
      host.hasWindowFacility = false) ∧
    ((run host cwd args).errors = [TabError.commandDeliveryFailed] ↔
      (host.hasWindowFacility = true ∧ host.acceptsInput = false ∧ args ≠ [])) ∧
    ((run host cwd args).exitCode ≠ 0 ↔ (run host cwd args).errors ≠ []) ∧
    ((run host cwd args).stdErr =
      (run host cwd args).errors.map TabError.message) ∧
    (∀ e : TabError, e.message ≠ "") ∧
    (openedDirs (run host cwd args).effects).length ≤ 1 ∧
    (deliveredTexts (run host cwd args).effects).length ≤ 1 := by
  obtain ⟨fac, inp⟩ := host
  refine ⟨fun e => by cases e <;> simp, ?_⟩
  cases fac <;> cases inp <;> cases args <;>
    simp_all [run, runCmd, buildCommand, openedDirs, deliveredTexts,
      RunResult.stdErr, TabError.message] <;>
    exact fun e => by cases e <;> simp [TabError.message]

/-- Witness for C4 on a host without a windowing facility. -/
theorem two_error_kinds_surfaced_witness :
    (run ⟨false, true⟩ "/tmp/project" []).errors =
      [TabError.environmentUnavailable] :=
  ((two_error_kinds_surfaced ⟨false, true⟩ "/tmp/project" []).2.1).2 rfl

/-- C5: on a host lacking the windowing facility the run exits non-zero and
issues no request at all — in particular no window is opened. -/
theorem no_facility_exits_nonzero_no_window (host : Host) (cwd : String)
    (args : List String) (h : host.hasWindowFacility = false) :
    (run host cwd args).exitCode ≠ 0 ∧ (run host cwd args).effects = [] := by
  obtain ⟨fac, inp⟩ := host
  cases args <;> simp_all [run, runCmd, buildCommand]

/-- Witness for C5. -/
theorem no_facility_exits_nonzero_no_window_witness :
    (run ⟨false, true⟩ "/tmp/project" ["ls"]).exitCode ≠ 0 ∧
    (run ⟨false, true⟩ "/tmp/project" ["ls"]).effects = [] :=
  no_facility_exits_nonzero_no_window ⟨false, true⟩ "/tmp/project" ["ls"] rfl

/-- C6: whatever command string is supplied, the text forwarded to the new
session is that string, unchanged. -/
theorem command_forwarded_verbatim (host : Host) (cwd cmd : String)
    (hfac : host.hasWindowFacility = true)
    (hinp : host.acceptsInput = true) :
    (runCmd host cwd (some cmd)).effects =
      [Effect.openWindow cwd, Effect.deliverText cmd, Effect.execTrigger] ∧
    deliveredTexts (runCmd host cwd (some cmd)).effects = [cmd] := by
  simp [runCmd, hfac, hinp, deliveredTexts]

/-- Witness for C6 with a command string containing flag-like text. -/
theorem command_forwarded_verbatim_witness :
    deliveredTexts (runCmd ⟨true, true⟩ "/tmp/project" (some "ls -la")).effects =
      ["ls -la"] :=
  (command_forwarded_verbatim ⟨true, true⟩ "/tmp/project" "ls -la" rfl rfl).2

/-- C7: every request a run issues is the single window-opening request at
the working directory, the delivery of the joined command text, or the
execution trigger — never a file write, an environment-variable change or
persisted state — and at most one window is opened. -/
theorem only_window_and_delivery_effects (host : Host) (cwd : String)
    (args : List String) :
    (∀ e ∈ (run host cwd args).effects,
      e = Effect.openWindow cwd ∨
      e = Effect.deliverText (String.intercalate " " args) ∨
      e = Effect.execTrigger) ∧
    (openedDirs (run host cwd args).effects).length ≤ 1 := by
  obtain ⟨fac, inp⟩ := host
  cases fac <;> cases inp <;> cases args <;>
    simp_all [run, runCmd, buildCommand, openedDirs]

/-- Witness for C7 at a concrete run and a concrete issued request. -/
theorem only_window_and_delivery_effects_witness :
    Effect.openWindow "/tmp/project" = Effect.openWindow "/tmp/project" ∨
    Effect.openWindow "/tmp/project" =
      Effect.deliverText (String.intercalate " " ["ls"]) ∨
    Effect.openWindow "/tmp/project" = Effect.execTrigger :=
  (only_window_and_delivery_effects ⟨true, true⟩ "/tmp/project" ["ls"]).1
    (Effect.openWindow "/tmp/project") (by decide)

/-- C8: in any interleaved schedule of two concurrent invocations, each
invocation's requests are exactly its solo-run requests — the interleaving
and the other invocation's inputs have no influence — and each invocation
with a working windowing facility opens its own window at its own working
directory. -/
theorem concurrent_invocations_independent (h1 h2 : Host) (c1 c2 : String)
    (a1 a2 : List String) (sched : List (Nat × Effect))
    (hs : Interleave (tagged 1 (run h1 c1 a1).effects)
      (tagged 2 (run h2 c2 a2).effects) sched) :
    projectInv 1 sched = (run h1 c1 a1).effects ∧
    projectInv 2 sched = (run h2 c2 a2).effects ∧
    (h1.hasWindowFacility = true → openedDirs (projectInv 1 sched) = [c1]) ∧
    (h2.hasWindowFacility = true → openedDirs (projectInv 2 sched) = [c2]) := by
  have p1 := interleave_projectInv_left 1 hs fun p hp =>
    (tagged_fst 2 (run h2 c2 a2).effects p hp) ▸ (by decide)
  have p2 := interleave_projectInv_right 2 hs fun p hp =>
    (tagged_fst 1 (run h1 c1 a1).effects p hp) ▸ (by decide)
  rw [projectInv_tagged_self] at p1 p2
  refine ⟨p1, p2, fun hf => ?_, fun hf => ?_⟩
  · rw [p1, openedDirs_run h1 c1 a1 hf]
  · rw [p2, openedDirs_run h2 c2 a2 hf]

/-- Witness for C8 at a concrete schedule interleaving two runs. -/
theorem concurrent_invocations_independent_witness :
    projectInv 1 [(1, Effect.openWindow "/a"), (2, Effect.openWindow "/b")] =
      (run ⟨true, true⟩ "/a" []).effects ∧
    projectInv 2 [(1, Effect.openWindow "/a"), (2, Effect.openWindow "/b")] =
      (run ⟨true, true⟩ "/b" []).effects := by
  have h := concurrent_invocations_independent ⟨true, true⟩ ⟨true, true⟩
    "/a" "/b" [] [] [(1, Effect.openWindow "/a"), (2, Effect.openWindow "/b")]
    (show Interleave [(1, Effect.openWindow "/a")] [(2, Effect.openWindow "/b")]
        [(1, Effect.openWindow "/a"), (2, Effect.openWindow "/b")] from
      Interleave.left (Interleave.right Interleave.nil))
  exact ⟨h.1, h.2.1⟩

/-- A classifier string lies in the PyPI operating-system namespace when it
starts with the characters of `Operating System`. -/
def isOsClassifier (c : String) : Bool :=
  "Operating System".data.isPrefixOf c.data

set_option maxRecDepth 8192 in
/-- C9: the packaging descriptor targets Mac OS X Terminal exclusively — its
classifiers contain exactly one operating-system classifier, namely
`Operating System :: Mac OS X`, its description names the OS X Terminal
application, and it installs exactly one script, `tab`. -/
theorem packaging_targets_mac_os_x_only (long_desc : String)
    (pkgs : List String) :
    (tabSetupArgs long_desc pkgs).classifiers.filter isOsClassifier =
      ["Operating System :: Mac OS X"] ∧
    (tabSetupArgs long_desc pkgs).scripts = ["tab"] ∧
    (∃ pre post : String,
      (tabSetupArgs long_desc pkgs).description =
        pre ++ "OS X Terminal" ++ post) := by
  refine ⟨by simp only [tabSetupArgs]; decide, rfl,
    "Opens a new ",
    " window in the current directory and runs an optional command in it.",
    by simp only [tabSetupArgs]; decide⟩

/-- C10: running `src/setup.py` over a filesystem containing a `README`
file invokes `setup` with `long_description` equal to that file's entire
contents verbatim; when no `README` exists, the script stops with an error
before `setup`, so `setup` is never invoked with any arguments. -/
theorem readme_gates_setup_and_long_description (fs : String → Option String)
    (pkgs : List String) :
    (∀ c, fs "README" = some c →
      runSetupScript fs pkgs = Except.ok (tabSetupArgs c pkgs) ∧
      (tabSetupArgs c pkgs).long_description = c) ∧
    (fs "README" = none →
      runSetupScript fs pkgs =
        Except.error "IOError: cannot open file README" ∧
      ∀ a : SetupArgs, runSetupScript fs pkgs ≠ Except.ok a) := by
  constructor
  · intro c hc
    exact ⟨by simp [runSetupScript, hc], rfl⟩
  · intro hn
    refine ⟨by simp [runSetupScript, hn], fun a => by simp [runSetupScript, hn]⟩

/-- Witness for C10 on a filesystem whose `README` holds the text
`A readme.`. -/
theorem readme_gates_setup_witness :
    runSetupScript (fun p => if p = "README" then some "A readme." else none)
        [] =
      Except.ok (tabSetupArgs "A readme." []) :=
  ((readme_gates_setup_and_long_description
    (fun p => if p = "README" then some "A readme." else none) []).1
    "A readme." (by decide)).1

end Tab
